import Mathlib

/-!
Verification of the local bootstrap orchestrator of reposwarm-cli
(`internal/bootstrap/local.go` and the `Environment` probe).

The Go code is embedded shallowly: every external effect (subprocess
invocation, filesystem write, health poll, HTTP GET) is recorded in an
`Effect` trace, and the outcome of each effectful operation is supplied
by a `World` of booleans / probe results, so that `SetupLocal` becomes a
pure function `Environment → String → Config → World → SetupOutcome`
mirroring the Go control flow line by line.

`waitForHTTP` is modelled separately as a discrete-time polling loop
(milliseconds), with the 2 s ticker and the overall deadline explicit.
-/

namespace RepoSwarm

/-- Subset of the Go `Environment` struct (`bootstrap` package): the five
presence flags consulted by `MissingDeps`. -/
structure Environment where
  hasDocker : Bool
  hasCompose : Bool
  hasNode : Bool
  hasPython : Bool
  hasGit : Bool
deriving Repr, DecidableEq

/-- `Environment.MissingDeps` from the Go probe: appends one entry per
absent hard prerequisite, in the source's order. -/
def MissingDeps (e : Environment) : List String :=
  (if e.hasDocker then [] else ["docker"]) ++
  (if e.hasCompose then [] else ["docker-compose"]) ++
  (if e.hasNode then [] else ["node (v22+)"]) ++
  (if e.hasPython then [] else ["python3 (3.11+)"]) ++
  (if e.hasGit then [] else ["git"])

/-- The Go `Config` struct consumed by `SetupLocal` (all string fields). -/
structure Config where
  WorkerRepoURL : String
  APIRepoURL : String
  UIRepoURL : String
  DynamoDBTable : String
  DefaultModel : String
  TemporalPort : String
  TemporalUIPort : String
  APIPort : String
  UIPort : String
  Region : String
deriving Repr, DecidableEq

/-- `LocalStepResult`: one step of the setup pipeline. -/
structure LocalStepResult where
  name : String
  status : String
  message : String
deriving Repr, DecidableEq

/-- `LocalSetupResult`: the aggregate outcome returned by `SetupLocal`. -/
structure LocalSetupResult where
  installDir : String
  token : String
  steps : List LocalStepResult
  success : Bool
deriving Repr, DecidableEq

/-- Observable external effects of the orchestrator, in execution order:
directory creation, file writes (with content), foreground subprocess
invocations, background process launches, health polls, and the final
verification GETs. -/
inductive Effect where
  | mkdir (path : String)
  | writeFile (path : String) (content : String)
  | run (argv : List String) (dir : String)
  | startBg (argv : List String) (dir : String)
  | healthWait (url : String) (timeoutSec : Nat)
  | httpGet (url : String)
deriving Repr, DecidableEq

/-- Outcome of one `http.Get` during the final verification pass:
`none` is a transport error, `some code` a response status. -/
abbrev ProbeResult := Option Nat

/-- Outcomes of every effectful operation `SetupLocal` performs, making the
orchestrator a pure function of this record. A `true` flag means the
corresponding Go call returned without error; `*DirExists` is the
`os.Stat`/`os.IsNotExist` test guarding each `git clone`. -/
structure World where
  randOk : Bool
  tokenBytes : List Nat
  installMkdirOk : Bool
  temporalMkdirOk : Bool
  temporalComposeWriteOk : Bool
  dockerUpOk : Bool
  temporalHealthOk : Bool
  apiDirExists : Bool
  apiCloneOk : Bool
  apiNpmInstallOk : Bool
  apiNpmBuildOk : Bool
  apiEnvWriteOk : Bool
  apiLogCreateOk : Bool
  apiStartOk : Bool
  apiHealthOk : Bool
  workerDirExists : Bool
  workerCloneOk : Bool
  workerVenvOk : Bool
  workerPipOk : Bool
  workerEnvWriteOk : Bool
  workerLogCreateOk : Bool
  workerStartOk : Bool
  uiDirExists : Bool
  uiCloneOk : Bool
  uiNpmInstallOk : Bool
  uiEnvWriteOk : Bool
  uiLogCreateOk : Bool
  uiStartOk : Bool
  uiHealthOk : Bool
  homeDirOk : Bool
  homeDir : String
  cliMkdirOk : Bool
  cliWriteOk : Bool
  verifyTemporal : ProbeResult
  verifyAPI : ProbeResult
  verifyUI : ProbeResult
deriving Repr, DecidableEq

/-- One hex digit, lower case, as produced by Go's `hex.EncodeToString`. -/
def hexChar (n : Nat) : Char :=
  if n < 10 then Char.ofNat (48 + n) else Char.ofNat (87 + n)

/-- `hex.EncodeToString`: two lower-case hex digits per byte. -/
def hexEncode (bs : List Nat) : String :=
  ⟨bs.foldr (fun b acc => hexChar ((b % 256) / 16) :: hexChar (b % 16) :: acc) []⟩

/-- The docker-compose manifest written by `TemporalComposeLocal`
(postgres with a readiness healthcheck, temporal depending on it,
temporal-ui depending on temporal). -/
def TemporalComposeLocal : String :=
  "services:\n  postgres:\n    image: postgres:16-alpine\n    ports:\n      - \"5432:5432\"\n    environment:\n      POSTGRES_USER: temporal\n      POSTGRES_PASSWORD: temporal\n    healthcheck:\n      test: [\"CMD-SHELL\", \"pg_isready -U temporal\"]\n      interval: 5s\n      timeout: 5s\n      retries: 10\n    volumes:\n      - temporal-data:/var/lib/postgresql/data\n\n  temporal:\n    image: temporalio/auto-setup:latest\n    ports:\n      - \"7233:7233\"\n    environment:\n      - DB=postgres12\n      - POSTGRES_USER=temporal\n      - POSTGRES_PWD=temporal\n      - POSTGRES_SEEDS=postgres\n      - DYNAMIC_CONFIG_FILE_PATH=config/dynamicconfig/development-sql.yaml\n      - SKIP_DEFAULT_NAMESPACE_CREATION=false\n    depends_on:\n      postgres:\n        condition: service_healthy\n\n  temporal-ui:\n    image: temporalio/ui:latest\n    ports:\n      - \"8233:8080\"\n    environment:\n      - TEMPORAL_ADDRESS=temporal:7233\n    depends_on:\n      - temporal\n\nvolumes:\n  temporal-data:\n"

/-- Temporal health/verify URL (`/api/v1/namespaces`). -/
def tempUrl (cfg : Config) : String :=
  "http://localhost:" ++ cfg.TemporalPort ++ "/api/v1/namespaces"

/-- API health/verify URL (`/v1/health`). -/
def apiHealthUrl (cfg : Config) : String :=
  "http://localhost:" ++ cfg.APIPort ++ "/v1/health"

/-- UI root URL. -/
def uiUrl (cfg : Config) : String :=
  "http://localhost:" ++ cfg.UIPort

/-- The `.env` content `setupAPI` writes (the only service env file that
carries the generated bearer token). -/
def apiEnvContent (cfg : Config) (token : String) : String :=
  "PORT=" ++ cfg.APIPort ++
  "\nTEMPORAL_ADDRESS=localhost:" ++ cfg.TemporalPort ++
  "\nTEMPORAL_NAMESPACE=default\nTEMPORAL_TASK_QUEUE=investigate-task-queue\nAWS_REGION=" ++ cfg.Region ++
  "\nDYNAMODB_TABLE=" ++ cfg.DynamoDBTable ++
  "\nBEARER_TOKEN=" ++ token ++
  "\nAUTH_MODE=local\n"

/-- The `.env` content `setupWorker` writes: Temporal address, region,
table and model only — no token field. -/
def workerEnvContent (cfg : Config) : String :=
  "TEMPORAL_ADDRESS=localhost:" ++ cfg.TemporalPort ++
  "\nTEMPORAL_NAMESPACE=default\nTEMPORAL_TASK_QUEUE=investigate-task-queue\nAWS_REGION=" ++ cfg.Region ++
  "\nDYNAMODB_TABLE=" ++ cfg.DynamoDBTable ++
  "\nDEFAULT_MODEL=" ++ cfg.DefaultModel ++ "\n"

/-- The `.env.local` content `setupUI` writes. -/
def uiEnvContent (cfg : Config) : String :=
  "NEXT_PUBLIC_API_URL=http://localhost:" ++ cfg.APIPort ++ "\n"

/-- The JSON `configureCLI` writes to `~/.reposwarm/config.json`. -/
def cliConfigContent (cfg : Config) (token : String) : String :=
  "\x7b\n  \"apiUrl\": \"http://localhost:" ++ cfg.APIPort ++ "/v1\",\n  \"apiToken\": \"" ++
  token ++ "\",\n  \"region\": \"us-east-1\",\n  \"defaultModel\": \"" ++ cfg.DefaultModel ++
  "\",\n  \"chunkSize\": 10,\n  \"outputFormat\": \"pretty\"\n\x7d\n"

/-- `setupTemporal`: mkdir, write compose file, `docker compose up -d`,
then a 60 s health wait on the namespaces endpoint (on timeout it also
runs `docker compose ps` for diagnostics). Fatal on any failure. -/
def setupTemporal (installDir : String) (cfg : Config) (w : World) :
    Option String × List Effect :=
  let temporalDir := installDir ++ "/temporal"
  let t0 : List Effect := [.mkdir temporalDir]
  if !w.temporalMkdirOk then (some "mkdir temporal failed", t0) else
  let t1 := t0 ++ [.writeFile (temporalDir ++ "/docker-compose.yml") TemporalComposeLocal]
  if !w.temporalComposeWriteOk then (some "writing docker-compose.yml failed", t1) else
  let t2 := t1 ++ [.run ["docker", "compose", "up", "-d"] temporalDir]
  if !w.dockerUpOk then (some "docker compose up failed", t2) else
  let t3 := t2 ++ [.healthWait (tempUrl cfg) 60]
  if !w.temporalHealthOk then
    (some "temporal not ready after 60s",
     t3 ++ [.run ["docker", "compose", "ps", "--format", "\x7b\x7b.Name\x7d\x7d\t\x7b\x7b.Status\x7d\x7d"] temporalDir])
  else (none, t3)

/-- `setupAPI`: clone unless the `api` directory exists, `npm install`,
`npm run build`, write `.env` (with the bearer token), create the log
file, launch `npm start` in the background, write the pid file, then a
30 s health wait. Fatal on any failure, including the health timeout. -/
def setupAPI (installDir : String) (cfg : Config) (token : String) (w : World) :
    Option String × List Effect :=
  let apiDir := installDir ++ "/api"
  let t0 : List Effect :=
    if w.apiDirExists then [] else [.run ["git", "clone", cfg.APIRepoURL, "api"] installDir]
  if !w.apiDirExists && !w.apiCloneOk then (some "git clone failed", t0) else
  let t1 := t0 ++ [.run ["npm", "install"] apiDir]
  if !w.apiNpmInstallOk then (some "npm install failed", t1) else
  let t2 := t1 ++ [.run ["npm", "run", "build"] apiDir]
  if !w.apiNpmBuildOk then (some "npm build failed", t2) else
  let t3 := t2 ++ [.writeFile (apiDir ++ "/.env") (apiEnvContent cfg token)]
  if !w.apiEnvWriteOk then (some "writing .env failed", t3) else
  let t4 := t3 ++ [.writeFile (apiDir ++ "/api.log") ""]
  if !w.apiLogCreateOk then (some "creating log file failed", t4) else
  let t5 := t4 ++ [.startBg ["npm", "start"] apiDir]
  if !w.apiStartOk then (some "starting API failed", t5) else
  let t6 := t5 ++ [.writeFile (apiDir ++ "/api.pid") "PID"]
  let t7 := t6 ++ [.healthWait (apiHealthUrl cfg) 30]
  if !w.apiHealthOk then (some "API not ready after 30s", t7) else (none, t7)

/-- `setupWorker`: clone unless the `worker` directory exists, create a
venv, `pip install`, write `.env` (no token), create the log file, launch
the worker in the background, write the pid file. No health wait at all:
the function returns success right after the launch. -/
def setupWorker (installDir : String) (cfg : Config) (w : World) :
    Option String × List Effect :=
  let workerDir := installDir ++ "/worker"
  let t0 : List Effect :=
    if w.workerDirExists then [] else [.run ["git", "clone", cfg.WorkerRepoURL, "worker"] installDir]
  if !w.workerDirExists && !w.workerCloneOk then (some "git clone failed", t0) else
  let t1 := t0 ++ [.run ["python3", "-m", "venv", ".venv"] workerDir]
  if !w.workerVenvOk then (some "venv creation failed", t1) else
  let t2 := t1 ++ [.run [workerDir ++ "/.venv/bin/pip", "install", "-r", "requirements.txt"] workerDir]
  if !w.workerPipOk then (some "pip install failed", t2) else
  let t3 := t2 ++ [.writeFile (workerDir ++ "/.env") (workerEnvContent cfg)]
  if !w.workerEnvWriteOk then (some "writing .env failed", t3) else
  let t4 := t3 ++ [.writeFile (workerDir ++ "/worker.log") ""]
  if !w.workerLogCreateOk then (some "creating log file failed", t4) else
  let t5 := t4 ++ [.startBg [workerDir ++ "/.venv/bin/python", "-m", "worker.main"] workerDir]
  if !w.workerStartOk then (some "starting worker failed", t5) else
  (none, t5 ++ [.writeFile (workerDir ++ "/worker.pid") "PID"])

/-- `setupUI`: clone unless the `ui` directory exists, `npm install`,
write `.env.local`, create the log file, launch `npm run dev` in the
background, write the pid file, then a 30 s health wait whose timeout is
non-fatal: the Go code warns and returns `nil`, so the step still
succeeds. -/
def setupUI (installDir : String) (cfg : Config) (w : World) :
    Option String × List Effect :=
  let uiDir := installDir ++ "/ui"
  let t0 : List Effect :=
    if w.uiDirExists then [] else [.run ["git", "clone", cfg.UIRepoURL, "ui"] installDir]
  if !w.uiDirExists && !w.uiCloneOk then (some "git clone failed", t0) else
  let t1 := t0 ++ [.run ["npm", "install"] uiDir]
  if !w.uiNpmInstallOk then (some "npm install failed", t1) else
  let t2 := t1 ++ [.writeFile (uiDir ++ "/.env.local") (uiEnvContent cfg)]
  if !w.uiEnvWriteOk then (some "writing .env.local failed", t2) else
  let t3 := t2 ++ [.writeFile (uiDir ++ "/ui.log") ""]
  if !w.uiLogCreateOk then (some "creating log file failed", t3) else
  let t4 := t3 ++ [.startBg ["npm", "run", "dev"] uiDir]
  if !w.uiStartOk then (some "starting UI failed", t4) else
  let t5 := t4 ++ [.writeFile (uiDir ++ "/ui.pid") "PID"]
  (none, t5 ++ [.healthWait (uiUrl cfg) 30])

/-- `configureCLI`: resolve the home directory, mkdir `~/.reposwarm`
(0700), write `config.json` with the API URL and the bearer token. -/
def configureCLI (cfg : Config) (token : String) (w : World) :
    Option String × List Effect :=
  if !w.homeDirOk then (some "resolving home directory failed", []) else
  let configDir := w.homeDir ++ "/.reposwarm"
  let t0 : List Effect := [.mkdir configDir]
  if !w.cliMkdirOk then (some "creating config directory failed", t0) else
  let t1 := t0 ++ [.writeFile (configDir ++ "/config.json") (cliConfigContent cfg token)]
  if !w.cliWriteOk then (some "writing config.json failed", t1) else (none, t1)

/-- One check of `verifyServices`: transport error or status outside
[200, 400) marks the check (and hence the whole pass) as failing. -/
def verifyCheck (svc : String) (outcome : ProbeResult) : String × Bool :=
  match outcome with
  | none => (svc ++ ": fail", false)
  | some code =>
    if 200 ≤ code ∧ code < 400 then (svc ++ ": ok", true)
    else (svc ++ ": HTTP " ++ toString code, false)

/-- `verifyServices`: GET the Temporal, API and UI endpoints; the step is
`ok` only when all three respond with a 2xx/3xx status. -/
def verifyServices (cfg : Config) (w : World) : LocalStepResult × List Effect :=
  let t := verifyCheck "Temporal" w.verifyTemporal
  let a := verifyCheck "API" w.verifyAPI
  let u := verifyCheck "UI" w.verifyUI
  (⟨"verify", if t.2 && a.2 && u.2 then "ok" else "fail",
    String.intercalate "; " [t.1, a.1, u.1]⟩,
   [.httpGet (tempUrl cfg), .httpGet (apiHealthUrl cfg), .httpGet (uiUrl cfg)])

/-- Return value of the embedded `SetupLocal`: the Go function's result
pointer, its error, and the trace of external effects it performed. -/
structure SetupOutcome where
  result : LocalSetupResult
  error : Option String
  trace : List Effect
deriving Repr, DecidableEq

/-- `SetupLocal`: the top-level orchestrator. Prerequisite check, token
generation, install directory, then temporal / API (critical), worker /
UI (advisory), CLI config (critical), and the final verification pass;
`success` is set from the verify step's status alone. -/
def SetupLocal (env : Environment) (installDir : String) (cfg : Config) (w : World) :
    SetupOutcome :=
  let r0 : LocalSetupResult := ⟨installDir, "", [], false⟩
  let missing := MissingDeps env
  if !missing.isEmpty then
    { result := { r0 with steps := [⟨"prerequisites", "fail", "missing: " ++ String.intercalate ", " missing⟩] },
      error := some ("missing prerequisites: " ++ String.intercalate ", " missing ++ " — install them first"),
      trace := [] }
  else
  let steps0 : List LocalStepResult := [⟨"prerequisites", "ok", ""⟩]
  if !w.randOk then
    { result := { r0 with steps := steps0 }, error := some "generating token", trace := [] }
  else
  let token := hexEncode w.tokenBytes
  let r1 := { r0 with token := token }
  let tr1 : List Effect := [.mkdir installDir]
  if !w.installMkdirOk then
    { result := { r1 with steps := steps0 ++ [⟨"directories", "fail", "mkdir failed"⟩] },
      error := some "creating install directory failed", trace := tr1 }
  else
  let steps1 := steps0 ++ [⟨"directories", "ok", installDir⟩]
  match setupTemporal installDir cfg w with
  | (some e, trT) =>
    { result := { r1 with steps := steps1 ++ [⟨"temporal", "fail", e⟩] },
      error := some ("temporal setup: " ++ e), trace := tr1 ++ trT }
  | (none, trT) =>
  let steps2 := steps1 ++ [⟨"temporal", "ok", "http://localhost:" ++ cfg.TemporalUIPort⟩]
  let tr2 := tr1 ++ trT
  match setupAPI installDir cfg token w with
  | (some e, trA) =>
    { result := { r1 with steps := steps2 ++ [⟨"api", "fail", e⟩] },
      error := some ("API setup: " ++ e), trace := tr2 ++ trA }
  | (none, trA) =>
  let steps3 := steps2 ++ [⟨"api", "ok", "http://localhost:" ++ cfg.APIPort⟩]
  let tr3 := tr2 ++ trA
  let (eW, trW) := setupWorker installDir cfg w
  let steps4 := steps3 ++ [match eW with
    | some e => ⟨"worker", "fail", e⟩
    | none => ⟨"worker", "ok", ""⟩]
  let tr4 := tr3 ++ trW
  let (eU, trU) := setupUI installDir cfg w
  let steps5 := steps4 ++ [match eU with
    | some e => ⟨"ui", "fail", e⟩
    | none => ⟨"ui", "ok", "http://localhost:" ++ cfg.UIPort⟩]
  let tr5 := tr4 ++ trU
  match configureCLI cfg token w with
  | (some e, trC) =>
    { result := { r1 with steps := steps5 ++ [⟨"cli-config", "fail", e⟩] },
      error := some ("CLI configuration: " ++ e), trace := tr5 ++ trC }
  | (none, trC) =>
  let steps6 := steps5 ++ [⟨"cli-config", "ok", ""⟩]
  let (vs, trV) := verifyServices cfg w
  { result := { r1 with steps := steps6 ++ [vs], success := vs.status != "fail" },
    error := none, trace := tr5 ++ trC ++ trV }

/-! ### Temporal model of `waitForHTTP`

Time is in milliseconds. The Go loop owns a 2 s ticker and a context with
an overall deadline; each tick issues one GET with a 5 s client timeout.
A probe is modelled by its intended server response time and outcome; the
client timeout turns any probe slower than 5000 ms into a transport
failure. Probe `k` (0-based) fires at tick `2000 * (k+1)`; when the
deadline falls strictly before the next tick, the context fires and the
loop returns a timeout error at the deadline itself. -/

/-- Outcome of one GET issued by the polling loop. -/
inductive ProbeOutcome where
  | failure
  | status (code : Nat)
deriving Repr, DecidableEq

/-- One probe: the server's response time (ms) and the outcome it would
return if the client waited for it. -/
structure HTTPProbe where
  duration : Nat
  outcome : ProbeOutcome
deriving Repr, DecidableEq

/-- What the client observes for one probe: the 5 s per-request timeout
turns any response slower than 5000 ms into a transport failure. -/
def effOutcome (p : HTTPProbe) : ProbeOutcome :=
  if p.duration > 5000 then .failure else p.outcome

/-- A probe counts as healthy when it yields a status code below 500. -/
def probeHealthy (p : HTTPProbe) : Bool :=
  match effOutcome p with
  | .status code => code < 500
  | .failure => false

/-- Result of the polling loop: the return time (ms) and the number of
GETs issued. -/
inductive WaitResult where
  | success (timeMs : Nat) (probes : Nat)
  | timeout (timeMs : Nat) (probes : Nat)
deriving Repr, DecidableEq

/-- The polling loop of `waitForHTTP`, with `k` probes already issued and
explicit fuel: wait for the earlier of the next tick (`2000 * (k+1)`) and
the deadline; the deadline returns the timeout error, a healthy probe
returns success, anything else loops. -/
def waitGo (probes : Nat → HTTPProbe) (timeoutMs : Nat) : Nat → Nat → WaitResult
  | 0, k => .timeout timeoutMs k
  | fuel + 1, k =>
    if timeoutMs < 2000 * (k + 1) then .timeout timeoutMs k
    else if probeHealthy (probes k) then .success (2000 * (k + 1)) (k + 1)
    else waitGo probes timeoutMs fuel (k + 1)

/-- `waitForHTTP url timeout`: run the polling loop from time 0 with
enough fuel to reach the deadline. -/
def waitForHTTP (probes : Nat → HTTPProbe) (timeoutMs : Nat) : WaitResult :=
  waitGo probes timeoutMs (timeoutMs / 2000 + 1) 0

/-! ### Concrete fixtures for witnesses and counterexamples -/

/-- A host with every hard prerequisite present. -/
def envAll : Environment := ⟨true, true, true, true, true⟩

/-- A host missing docker. -/
def envNoDocker : Environment := ⟨false, true, true, true, true⟩

/-- A concrete configuration. -/
def cfg0 : Config :=
  ⟨"https://w.git", "https://a.git", "https://u.git", "tbl", "mdl", "7233", "8233",
   "3000", "3001", "us-east-1"⟩

/-- A world where every effectful operation succeeds and every verify
probe answers 200. -/
def wAll : World where
  randOk := true
  tokenBytes := List.replicate 32 0
  installMkdirOk := true
  temporalMkdirOk := true
  temporalComposeWriteOk := true
  dockerUpOk := true
  temporalHealthOk := true
  apiDirExists := false
  apiCloneOk := true
  apiNpmInstallOk := true
  apiNpmBuildOk := true
  apiEnvWriteOk := true
  apiLogCreateOk := true
  apiStartOk := true
  apiHealthOk := true
  workerDirExists := false
  workerCloneOk := true
  workerVenvOk := true
  workerPipOk := true
  workerEnvWriteOk := true
  workerLogCreateOk := true
  workerStartOk := true
  uiDirExists := false
  uiCloneOk := true
  uiNpmInstallOk := true
  uiEnvWriteOk := true
  uiLogCreateOk := true
  uiStartOk := true
  uiHealthOk := true
  homeDirOk := true
  homeDir := "/home/u"
  cliMkdirOk := true
  cliWriteOk := true
  verifyTemporal := some 200
  verifyAPI := some 200
  verifyUI := some 200

/-- The step names the claims call critical. -/
def criticalNames : List String :=
  ["prerequisites", "directories", "temporal", "api", "cli-config"]

/-- `pat` occurs as a contiguous substring of `s`. -/
abbrev strHasSub (s pat : String) : Prop := pat.data <:+: s.data

/-- The verification pass counts a probe healthy when it returns a 2xx/3xx
status. -/
def ProbeHealthy2xx3xx (r : ProbeResult) : Prop :=
  ∃ c, r = some c ∧ 200 ≤ c ∧ c < 400

/-- Every effectful operation of the run succeeds and every final
verification probe is healthy (`*DirExists` flags are unconstrained:
a pre-existing directory merely skips the clone). -/
def WorldAllOk (w : World) : Prop :=
  w.randOk = true ∧ w.installMkdirOk = true ∧
  w.temporalMkdirOk = true ∧ w.temporalComposeWriteOk = true ∧ w.dockerUpOk = true ∧
  w.temporalHealthOk = true ∧
  w.apiCloneOk = true ∧ w.apiNpmInstallOk = true ∧ w.apiNpmBuildOk = true ∧
  w.apiEnvWriteOk = true ∧ w.apiLogCreateOk = true ∧ w.apiStartOk = true ∧
  w.apiHealthOk = true ∧
  w.workerCloneOk = true ∧ w.workerVenvOk = true ∧ w.workerPipOk = true ∧
  w.workerEnvWriteOk = true ∧ w.workerLogCreateOk = true ∧ w.workerStartOk = true ∧
  w.uiCloneOk = true ∧ w.uiNpmInstallOk = true ∧ w.uiEnvWriteOk = true ∧
  w.uiLogCreateOk = true ∧ w.uiStartOk = true ∧ w.uiHealthOk = true ∧
  w.homeDirOk = true ∧ w.cliMkdirOk = true ∧ w.cliWriteOk = true ∧
  ProbeHealthy2xx3xx w.verifyTemporal ∧ ProbeHealthy2xx3xx w.verifyAPI ∧
  ProbeHealthy2xx3xx w.verifyUI

/-! ### Claim theorems -/

/-- C3: if any hard prerequisite is missing, `SetupLocal` returns a
non-nil error having performed no filesystem mutation (its effect trace
is empty, so in particular no directory was created), and the result's
step list is exactly one `prerequisites` entry with status `fail`. -/
theorem C3_prereq_missing_aborts_clean (env : Environment) (installDir : String)
    (cfg : Config) (w : World) (h : MissingDeps env ≠ []) :
    (SetupLocal env installDir cfg w).error ≠ none ∧
    (SetupLocal env installDir cfg w).trace = [] ∧
    (∀ p, Effect.mkdir p ∉ (SetupLocal env installDir cfg w).trace) ∧
    (SetupLocal env installDir cfg w).result.steps =
      [⟨"prerequisites", "fail",
        "missing: " ++ String.intercalate ", " (MissingDeps env)⟩] := by
  rcases hm : MissingDeps env with _ | ⟨d, ds⟩
  · exact absurd hm h
  · simp [SetupLocal, hm]

/-- Witness for C3 on a host missing docker. -/
theorem C3_prereq_missing_aborts_clean_witness :
    MissingDeps envNoDocker ≠ [] ∧
    (SetupLocal envNoDocker "/tmp/rs" cfg0 wAll).error ≠ none ∧
    (SetupLocal envNoDocker "/tmp/rs" cfg0 wAll).trace = [] ∧
    (SetupLocal envNoDocker "/tmp/rs" cfg0 wAll).result.steps =
      [⟨"prerequisites", "fail", "missing: docker"⟩] := by
  have h := C3_prereq_missing_aborts_clean envNoDocker "/tmp/rs" cfg0 wAll (by decide)
  exact ⟨by decide, h.1, h.2.1, by rw [h.2.2.2]; rfl⟩

/-- C2: with every prerequisite present and every step succeeding,
`SetupLocal` succeeds and records exactly the 8 documented steps in the
documented order, each `ok` or `skip`. -/
theorem C2_full_success_eight_steps (env : Environment) (installDir : String)
    (cfg : Config) (w : World) (hm : MissingDeps env = []) (hok : WorldAllOk w) :
    (SetupLocal env installDir cfg w).result.success = true ∧
    (SetupLocal env installDir cfg w).result.steps.map LocalStepResult.name =
      ["prerequisites", "directories", "temporal", "api", "worker", "ui",
       "cli-config", "verify"] ∧
    ∀ s ∈ (SetupLocal env installDir cfg w).result.steps,
      s.status = "ok" ∨ s.status = "skip" := by
  obtain ⟨h1, h2, h3, h4, h5, h6, h7, h8, h9, h10, h11, h12, h13, h14, h15, h16,
    h17, h18, h19, h20, h21, h22, h23, h24, h25, h26, h27, h28,
    ⟨cT, hcT, hcT1, hcT2⟩, ⟨cA, hcA, hcA1, hcA2⟩, ⟨cU, hcU, hcU1, hcU2⟩⟩ := hok
  simp [SetupLocal, setupTemporal, setupAPI, setupWorker, setupUI, configureCLI,
    verifyServices, verifyCheck, hm, h1, h2, h3, h4, h5, h6, h7, h8, h9, h10,
    h11, h12, h13, h14, h15, h16, h17, h18, h19, h20, h21, h22, h23, h24, h25,
    h26, h27, h28, hcT, hcA, hcU, hcT1, hcT2, hcA1, hcA2, hcU1, hcU2]

/-- Witness for C2 at a fully healthy world. -/
theorem C2_full_success_eight_steps_witness :
    MissingDeps envAll = [] ∧
    (SetupLocal envAll "/tmp/rs" cfg0 wAll).result.success = true ∧
    (SetupLocal envAll "/tmp/rs" cfg0 wAll).result.steps.map LocalStepResult.name =
      ["prerequisites", "directories", "temporal", "api", "worker", "ui",
       "cli-config", "verify"] ∧
    ∀ s ∈ (SetupLocal envAll "/tmp/rs" cfg0 wAll).result.steps,
      s.status = "ok" ∨ s.status = "skip" := by
  have h := C2_full_success_eight_steps envAll "/tmp/rs" cfg0 wAll (by decide)
    (by refine ⟨rfl, rfl, rfl, rfl, rfl, rfl, rfl, rfl, rfl, rfl, rfl, rfl, rfl,
          rfl, rfl, rfl, rfl, rfl, rfl, rfl, rfl, rfl, rfl, rfl, rfl, rfl, rfl,
          rfl, ?_, ?_, ?_⟩ <;> exact ⟨200, rfl, by omega, by omega⟩)
  exact ⟨by decide, h⟩

/-- A world where everything succeeds except the final verification probe
of Temporal (transport error). -/
def wVerifyFail : World := { wAll with verifyTemporal := none }

/-- A world where everything succeeds except the worker's venv creation. -/
def wWorkerFail : World := { wAll with workerVenvOk := false }

/-- C1 counterexample: a completed run (`error = none`) in which no
critical step has status `fail`, yet `success` is `false`, because the
advisory final verification pass failed — refuting "success is true iff
no critical step has status=fail, regardless of advisory-step failures
(worker, ui, verify)". -/
theorem C1_counterexample_verify_fail :
    (SetupLocal envAll "/tmp/rs" cfg0 wVerifyFail).error = none ∧
    (∀ s ∈ (SetupLocal envAll "/tmp/rs" cfg0 wVerifyFail).result.steps,
      s.name ∈ criticalNames → s.status ≠ "fail") ∧
    (SetupLocal envAll "/tmp/rs" cfg0 wVerifyFail).result.success = false := by
  decide

/-- C1 amended: on every completed run of `SetupLocal`, no critical step
has status `fail`, and `success` is true iff the final verification
step's status is not `fail` — so advisory worker/ui failures do not
affect it, but a failing verification pass makes it false. -/
theorem C1_success_iff_verify_ok (env : Environment) (installDir : String)
    (cfg : Config) (w : World)
    (h : (SetupLocal env installDir cfg w).error = none) :
    ((SetupLocal env installDir cfg w).result.success = true ↔
      (verifyServices cfg w).1.status ≠ "fail") ∧
    ∀ s ∈ (SetupLocal env installDir cfg w).result.steps,
      s.name ∈ criticalNames → s.status ≠ "fail" := by
  cases hm : (MissingDeps env).isEmpty with
  | false => simp [SetupLocal, hm] at h
  | true =>
  cases hr : w.randOk with
  | false => simp [SetupLocal, hm, hr] at h
  | true =>
  cases hd : w.installMkdirOk with
  | false => simp [SetupLocal, hm, hr, hd] at h
  | true =>
  rcases hT : setupTemporal installDir cfg w with ⟨eT, trT⟩
  cases eT with
  | some e => simp [SetupLocal, hm, hr, hd, hT] at h
  | none =>
  rcases hA : setupAPI installDir cfg (hexEncode w.tokenBytes) w with ⟨eA, trA⟩
  cases eA with
  | some e => simp [SetupLocal, hm, hr, hd, hT, hA] at h
  | none =>
  rcases hW : setupWorker installDir cfg w with ⟨eW, trW⟩
  rcases hU : setupUI installDir cfg w with ⟨eU, trU⟩
  rcases hC : configureCLI cfg (hexEncode w.tokenBytes) w with ⟨eC, trC⟩
  cases eC with
  | some e => simp [SetupLocal, hm, hr, hd, hT, hA, hW, hU, hC] at h
  | none =>
  rcases hV : verifyServices cfg w with ⟨⟨vn, vstat, vmsg⟩, trV⟩
  have hvn : vn = "verify" := by
    have h0 : (verifyServices cfg w).1.name = "verify" := rfl
    rw [hV] at h0; exact h0
  subst hvn
  cases eW <;> cases eU <;>
    simp [SetupLocal, hm, hr, hd, hT, hA, hW, hU, hC, hV, criticalNames,
      bne_iff_ne]

/-- Witness for the amended C1 at a completed run with a failing verify
pass. -/
theorem C1_success_iff_verify_ok_witness :
    (SetupLocal envAll "/tmp/rs" cfg0 wVerifyFail).error = none ∧
    (((SetupLocal envAll "/tmp/rs" cfg0 wVerifyFail).result.success = true ↔
      (verifyServices cfg0 wVerifyFail).1.status ≠ "fail") ∧
    ∀ s ∈ (SetupLocal envAll "/tmp/rs" cfg0 wVerifyFail).result.steps,
      s.name ∈ criticalNames → s.status ≠ "fail") :=
  ⟨by decide, C1_success_iff_verify_ok envAll "/tmp/rs" cfg0 wVerifyFail (by decide)⟩

/-- C4: whenever API provisioning fails (any cause, including its health
timeout), `SetupLocal` aborts before the worker and UI steps: it returns
an error naming the API failure, the step list is exactly the steps
recorded before the abort plus an `api` fail entry, and no `worker` or
`ui` entry exists. -/
theorem C4_api_failure_aborts_before_worker_ui (env : Environment)
    (installDir : String) (cfg : Config) (w : World) (e : String)
    (hm : MissingDeps env = []) (hr : w.randOk = true)
    (hd : w.installMkdirOk = true)
    (hT : (setupTemporal installDir cfg w).1 = none)
    (hA : (setupAPI installDir cfg (hexEncode w.tokenBytes) w).1 = some e) :
    (SetupLocal env installDir cfg w).error = some ("API setup: " ++ e) ∧
    (SetupLocal env installDir cfg w).result.steps =
      [⟨"prerequisites", "ok", ""⟩, ⟨"directories", "ok", installDir⟩,
       ⟨"temporal", "ok", "http://localhost:" ++ cfg.TemporalUIPort⟩,
       ⟨"api", "fail", e⟩] ∧
    ∀ s ∈ (SetupLocal env installDir cfg w).result.steps,
      s.name ≠ "worker" ∧ s.name ≠ "ui" := by
  rcases hT' : setupTemporal installDir cfg w with ⟨eT, trT⟩
  rw [hT'] at hT; simp only at hT; subst hT
  rcases hA' : setupAPI installDir cfg (hexEncode w.tokenBytes) w with ⟨eA, trA⟩
  rw [hA'] at hA; simp only at hA; subst hA
  simp [SetupLocal, hm, hr, hd, hT', hA']

/-- Witness for C4: the API health probe times out, everything earlier
succeeded. -/
theorem C4_api_failure_aborts_before_worker_ui_witness :
    (SetupLocal envAll "/tmp/rs" cfg0 { wAll with apiHealthOk := false }).error =
      some ("API setup: " ++ "API not ready after 30s") ∧
    (SetupLocal envAll "/tmp/rs" cfg0 { wAll with apiHealthOk := false }).result.steps =
      [⟨"prerequisites", "ok", ""⟩, ⟨"directories", "ok", "/tmp/rs"⟩,
       ⟨"temporal", "ok", "http://localhost:" ++ cfg0.TemporalUIPort⟩,
       ⟨"api", "fail", "API not ready after 30s"⟩] ∧
    ∀ s ∈ (SetupLocal envAll "/tmp/rs" cfg0
        { wAll with apiHealthOk := false }).result.steps,
      s.name ≠ "worker" ∧ s.name ≠ "ui" :=
  C4_api_failure_aborts_before_worker_ui envAll "/tmp/rs" cfg0
    { wAll with apiHealthOk := false } "API not ready after 30s"
    (by decide) (by decide) (by decide) (by decide) (by decide)

/-- C5: a worker-provisioning failure records a `worker` fail entry but
never prevents the UI step from being attempted, and there is a concrete
run whose worker step failed while `success` is still true. -/
theorem C5_worker_failure_never_blocks_ui :
    (∀ (env : Environment) (installDir : String) (cfg : Config) (w : World)
      (e : String), MissingDeps env = [] → w.randOk = true →
      w.installMkdirOk = true →
      (setupTemporal installDir cfg w).1 = none →
      (setupAPI installDir cfg (hexEncode w.tokenBytes) w).1 = none →
      (setupWorker installDir cfg w).1 = some e →
      LocalStepResult.mk "worker" "fail" e ∈
        (SetupLocal env installDir cfg w).result.steps ∧
      ∃ s ∈ (SetupLocal env installDir cfg w).result.steps, s.name = "ui") ∧
    (∃ s ∈ (SetupLocal envAll "/tmp/rs" cfg0 wWorkerFail).result.steps,
      s.name = "worker" ∧ s.status = "fail") ∧
    (SetupLocal envAll "/tmp/rs" cfg0 wWorkerFail).result.success = true := by
  refine ⟨?_, by decide, by decide⟩
  intro env installDir cfg w e hm hr hd hT hA hW
  rcases hT' : setupTemporal installDir cfg w with ⟨eT, trT⟩
  rw [hT'] at hT; simp only at hT; subst hT
  rcases hA' : setupAPI installDir cfg (hexEncode w.tokenBytes) w with ⟨eA, trA⟩
  rw [hA'] at hA; simp only at hA; subst hA
  rcases hW' : setupWorker installDir cfg w with ⟨eW, trW⟩
  rw [hW'] at hW; simp only at hW; subst hW
  rcases hU : setupUI installDir cfg w with ⟨eU, trU⟩
  rcases hC : configureCLI cfg (hexEncode w.tokenBytes) w with ⟨eC, trC⟩
  cases eC with
  | some e' =>
    cases eU <;> simp [SetupLocal, hm, hr, hd, hT', hA', hW', hU, hC]
  | none =>
    rcases hV : verifyServices cfg w with ⟨vs, trV⟩
    cases eU <;> simp [SetupLocal, hm, hr, hd, hT', hA', hW', hU, hC, hV]

/-- Witness for C5's universal part at a concrete worker failure. -/
theorem C5_worker_failure_never_blocks_ui_witness :
    LocalStepResult.mk "worker" "fail" "venv creation failed" ∈
      (SetupLocal envAll "/tmp/rs" cfg0 wWorkerFail).result.steps ∧
    ∃ s ∈ (SetupLocal envAll "/tmp/rs" cfg0 wWorkerFail).result.steps,
      s.name = "ui" :=
  C5_worker_failure_never_blocks_ui.1 envAll "/tmp/rs" cfg0 wWorkerFail
    "venv creation failed" (by decide) (by decide) (by decide) (by decide)
    (by decide) (by decide)

/-- Is this effect a health poll (`waitForHTTP` invocation)? -/
def Effect.isHealthWait : Effect → Bool
  | .healthWait _ _ => true
  | _ => false

/-- Is this effect a fetch (a `git` subprocess invocation)? -/
def Effect.isFetch : Effect → Bool
  | .run argv _ => argv.head? == some "git"
  | _ => false

/-- A string with a suffix longer than 3 characters is not `"git"`. -/
theorem append_ne_git (a b : String) (h : 3 < b.length) : a ++ b ≠ "git" := by
  intro he
  have hl := congrArg String.length he
  rw [String.length_append] at hl
  have : ("git" : String).length = 3 := by decide
  omega

/-- `setupTemporal` never invokes git. -/
theorem setupTemporal_noFetch (installDir : String) (cfg : Config) (w : World) :
    ∀ e ∈ (setupTemporal installDir cfg w).2, e.isFetch = false := by
  simp only [setupTemporal]
  split_ifs <;> simp [Effect.isFetch]

/-- When the `api` directory pre-exists, `setupAPI` performs no fetch. -/
theorem setupAPI_noFetch (installDir : String) (cfg : Config) (token : String)
    (w : World) (h : w.apiDirExists = true) :
    ∀ e ∈ (setupAPI installDir cfg token w).2, e.isFetch = false := by
  simp only [setupAPI, h]
  split_ifs <;> simp [Effect.isFetch]

/-- When the `worker` directory pre-exists, `setupWorker` performs no
fetch. -/
theorem setupWorker_noFetch (installDir : String) (cfg : Config) (w : World)
    (h : w.workerDirExists = true) :
    ∀ e ∈ (setupWorker installDir cfg w).2, e.isFetch = false := by
  simp only [setupWorker, h]
  split_ifs <;> simp [Effect.isFetch] <;>
    exact append_ne_git _ _ (by decide)

/-- When the `ui` directory pre-exists, `setupUI` performs no fetch. -/
theorem setupUI_noFetch (installDir : String) (cfg : Config) (w : World)
    (h : w.uiDirExists = true) :
    ∀ e ∈ (setupUI installDir cfg w).2, e.isFetch = false := by
  simp only [setupUI, h]
  split_ifs <;> simp [Effect.isFetch]

/-- `configureCLI` never invokes git. -/
theorem configureCLI_noFetch (cfg : Config) (token : String) (w : World) :
    ∀ e ∈ (configureCLI cfg token w).2, e.isFetch = false := by
  simp only [configureCLI]
  split_ifs <;> simp [Effect.isFetch]

/-- `verifyServices` never invokes git. -/
theorem verifyServices_noFetch (cfg : Config) (w : World) :
    ∀ e ∈ (verifyServices cfg w).2, e.isFetch = false := by
  simp [verifyServices, Effect.isFetch]

/-- `setupWorker` performs no health poll whatsoever. -/
theorem setupWorker_no_healthWait (installDir : String) (cfg : Config)
    (w : World) :
    ∀ e ∈ (setupWorker installDir cfg w).2, e.isHealthWait = false := by
  simp only [setupWorker]
  split_ifs <;> simp [Effect.isHealthWait]

/-- A world where everything succeeds except the UI health probe. -/
def wUIHealthFail : World := { wAll with uiHealthOk := false }

/-- A world where the three provisioning-time health probes all fail. -/
def wProbesFail : World :=
  { wAll with temporalHealthOk := false, apiHealthOk := false, uiHealthOk := false }

/-- A world where every service subdirectory already exists (a re-run
against a pre-populated install directory). -/
def wPrePopulated : World :=
  { wAll with apiDirExists := true, workerDirExists := true, uiDirExists := true }

/-- C7 counterexample: in a run where the UI health probe fails, the `ui`
step records status `ok`, not `fail` (the Go code warns and returns
`nil`), and the worker is provisioned without any health probe at all —
refuting "provisioning awaits *every* service's own health endpoint" and
"that service's StepResult records status fail". -/
theorem C7_counterexample_ui_ok_worker_unprobed :
    wUIHealthFail.uiHealthOk = false ∧
    (SetupLocal envAll "/tmp/rs" cfg0 wUIHealthFail).error = none ∧
    Effect.healthWait (uiUrl cfg0) 30 ∈
      (SetupLocal envAll "/tmp/rs" cfg0 wUIHealthFail).trace ∧
    LocalStepResult.mk "ui" "ok" "http://localhost:3001" ∈
      (SetupLocal envAll "/tmp/rs" cfg0 wUIHealthFail).result.steps ∧
    (∀ s ∈ (SetupLocal envAll "/tmp/rs" cfg0 wUIHealthFail).result.steps,
      s.name = "ui" → s.status ≠ "fail") ∧
    ((setupWorker "/tmp/rs" cfg0 wUIHealthFail).2.all fun e => !e.isHealthWait) = true := by
  decide

/-- C7 amended: Temporal and API provisioning await their own health
endpoints (60 s resp. 30 s) and a probe failure is a provisioning error
(which `SetupLocal` treats as fatal); UI provisioning awaits its endpoint
(30 s) but a probe failure is advisory — `setupUI` still returns success;
and worker provisioning performs no health probe at all. -/
theorem C7_health_probe_policy (installDir : String) (cfg : Config)
    (token : String) (w : World)
    (h1 : w.temporalMkdirOk = true) (h2 : w.temporalComposeWriteOk = true)
    (h3 : w.dockerUpOk = true) (h4 : w.temporalHealthOk = false)
    (h5 : w.apiCloneOk = true) (h6 : w.apiNpmInstallOk = true)
    (h7 : w.apiNpmBuildOk = true) (h8 : w.apiEnvWriteOk = true)
    (h9 : w.apiLogCreateOk = true) (h10 : w.apiStartOk = true)
    (h11 : w.apiHealthOk = false)
    (h12 : w.uiCloneOk = true) (h13 : w.uiNpmInstallOk = true)
    (h14 : w.uiEnvWriteOk = true) (h15 : w.uiLogCreateOk = true)
    (h16 : w.uiStartOk = true) (h17 : w.uiHealthOk = false) :
    ((setupTemporal installDir cfg w).1 = some "temporal not ready after 60s" ∧
      Effect.healthWait (tempUrl cfg) 60 ∈ (setupTemporal installDir cfg w).2) ∧
    ((setupAPI installDir cfg token w).1 = some "API not ready after 30s" ∧
      Effect.healthWait (apiHealthUrl cfg) 30 ∈ (setupAPI installDir cfg token w).2) ∧
    ((setupUI installDir cfg w).1 = none ∧
      Effect.healthWait (uiUrl cfg) 30 ∈ (setupUI installDir cfg w).2) ∧
    (∀ e ∈ (setupWorker installDir cfg w).2, e.isHealthWait = false) := by
  refine ⟨⟨?_, ?_⟩, ⟨?_, ?_⟩, ⟨?_, ?_⟩, setupWorker_no_healthWait installDir cfg w⟩ <;>
    simp [setupTemporal, setupAPI, setupUI, h1, h2, h3, h4, h5, h6, h7, h8, h9,
      h10, h11, h12, h13, h14, h15, h16, h17]

/-- Witness for C7's amended policy at a world where all three probed
services time out. -/
theorem C7_health_probe_policy_witness :
    ((setupTemporal "/tmp/rs" cfg0 wProbesFail).1 = some "temporal not ready after 60s" ∧
      Effect.healthWait (tempUrl cfg0) 60 ∈ (setupTemporal "/tmp/rs" cfg0 wProbesFail).2) ∧
    ((setupAPI "/tmp/rs" cfg0 "tok" wProbesFail).1 = some "API not ready after 30s" ∧
      Effect.healthWait (apiHealthUrl cfg0) 30 ∈ (setupAPI "/tmp/rs" cfg0 "tok" wProbesFail).2) ∧
    ((setupUI "/tmp/rs" cfg0 wProbesFail).1 = none ∧
      Effect.healthWait (uiUrl cfg0) 30 ∈ (setupUI "/tmp/rs" cfg0 wProbesFail).2) ∧
    (∀ e ∈ (setupWorker "/tmp/rs" cfg0 wProbesFail).2, e.isHealthWait = false) :=
  C7_health_probe_policy "/tmp/rs" cfg0 "tok" wProbesFail
    rfl rfl rfl rfl rfl rfl rfl rfl rfl rfl rfl rfl rfl rfl rfl rfl rfl

/-- C9: a pre-existing service subdirectory makes provisioning skip the
fetch sub-step — each of `setupAPI`, `setupWorker`, `setupUI` invokes no
git subprocess when its directory exists — and a full `SetupLocal` run
against a pre-populated install directory performs no fetch at all. -/
theorem C9_preexisting_dir_skips_fetch :
    (∀ (installDir : String) (cfg : Config) (token : String) (w : World),
      w.apiDirExists = true →
      ∀ e ∈ (setupAPI installDir cfg token w).2, e.isFetch = false) ∧
    (∀ (installDir : String) (cfg : Config) (w : World),
      w.workerDirExists = true →
      ∀ e ∈ (setupWorker installDir cfg w).2, e.isFetch = false) ∧
    (∀ (installDir : String) (cfg : Config) (w : World),
      w.uiDirExists = true →
      ∀ e ∈ (setupUI installDir cfg w).2, e.isFetch = false) ∧
    (∀ (env : Environment) (installDir : String) (cfg : Config) (w : World),
      w.apiDirExists = true → w.workerDirExists = true → w.uiDirExists = true →
      ∀ e ∈ (SetupLocal env installDir cfg w).trace, e.isFetch = false) := by
  refine ⟨setupAPI_noFetch, setupWorker_noFetch, setupUI_noFetch, ?_⟩
  intro env installDir cfg w hA hW hU
  have fT := setupTemporal_noFetch installDir cfg w
  have fA := setupAPI_noFetch installDir cfg (hexEncode w.tokenBytes) w hA
  have fW := setupWorker_noFetch installDir cfg w hW
  have fU := setupUI_noFetch installDir cfg w hU
  have fC := configureCLI_noFetch cfg (hexEncode w.tokenBytes) w
  have fV := verifyServices_noFetch cfg w
  cases hm : (MissingDeps env).isEmpty with
  | false => simp [SetupLocal, hm]
  | true =>
  cases hr : w.randOk with
  | false => simp [SetupLocal, hm, hr]
  | true =>
  cases hd : w.installMkdirOk with
  | false => simp [SetupLocal, hm, hr, hd, Effect.isFetch]
  | true =>
  rcases hT : setupTemporal installDir cfg w with ⟨eT, trT⟩
  rw [hT] at fT; simp only at fT
  cases eT with
  | some e =>
    simp only [SetupLocal, hm, hr, hd, hT]
    simp [List.forall_mem_append, Effect.isFetch]
    exact fT
  | none =>
  rcases hA' : setupAPI installDir cfg (hexEncode w.tokenBytes) w with ⟨eA, trA⟩
  rw [hA'] at fA; simp only at fA
  cases eA with
  | some e =>
    simp only [SetupLocal, hm, hr, hd, hT, hA']
    simp [List.forall_mem_append, Effect.isFetch]
    intro a ha
    rcases ha with h | h
    exacts [fT a h, fA a h]
  | none =>
  rcases hW' : setupWorker installDir cfg w with ⟨eW, trW⟩
  rw [hW'] at fW; simp only at fW
  rcases hU' : setupUI installDir cfg w with ⟨eU, trU⟩
  rw [hU'] at fU; simp only at fU
  rcases hC : configureCLI cfg (hexEncode w.tokenBytes) w with ⟨eC, trC⟩
  rw [hC] at fC; simp only at fC
  cases eC with
  | some e =>
    simp only [SetupLocal, hm, hr, hd, hT, hA', hW', hU', hC]
    simp [List.forall_mem_append, Effect.isFetch]
    intro a ha
    rcases ha with h | h | h | h | h
    exacts [fT a h, fA a h, fW a h, fU a h, fC a h]
  | none =>
  rcases hV : verifyServices cfg w with ⟨vs, trV⟩
  rw [hV] at fV; simp only at fV
  simp only [SetupLocal, hm, hr, hd, hT, hA', hW', hU', hC, hV]
  simp [List.forall_mem_append, Effect.isFetch]
  intro a ha
  rcases ha with h | h | h | h | h | h
  exacts [fT a h, fA a h, fW a h, fU a h, fC a h, fV a h]

/-- Witness for C9: a pre-populated install directory, all steps
succeeding: the whole run's trace contains no git invocation. -/
theorem C9_preexisting_dir_skips_fetch_witness :
    wPrePopulated.apiDirExists = true ∧ wPrePopulated.workerDirExists = true ∧
    wPrePopulated.uiDirExists = true ∧
    ∀ e ∈ (SetupLocal envAll "/tmp/rs" cfg0 wPrePopulated).trace,
      e.isFetch = false := by
  refine ⟨rfl, rfl, rfl, ?_⟩
  exact C9_preexisting_dir_skips_fetch.2.2.2 envAll "/tmp/rs" cfg0 wPrePopulated
    rfl rfl rfl

/-! ### Token lemmas (C6) -/

/-- `hexEncode` yields two characters per input byte. -/
theorem hexEncode_length (bs : List Nat) : (hexEncode bs).length = 2 * bs.length := by
  induction bs with
  | nil => rfl
  | cons b tl ih =>
    simp only [hexEncode, String.length, List.foldr] at ih ⊢
    simp only [List.length_cons]
    omega

/-- Every character `hexEncode` emits is a lower-case hex digit. -/
theorem hexEncode_mem_hexdigits (bs : List Nat) :
    ∀ c ∈ (hexEncode bs).data, c ∈ ("0123456789abcdef").data := by
  have hx : ∀ n, n < 16 → hexChar n ∈ ("0123456789abcdef").data := by decide
  induction bs with
  | nil => simp [hexEncode]
  | cons b tl ih =>
    intro c hc
    simp only [hexEncode, List.foldr, List.mem_cons] at hc
    rcases hc with rfl | rfl | hc
    · exact hx _ (by omega)
    · exact hx _ (by omega)
    · exact ih c hc

/-- A string of the shape `a ++ tok ++ b` contains `tok`. -/
theorem strHasSub_of_eq (s a tok b : String) (h : s = a ++ tok ++ b) :
    strHasSub s tok := by
  subst h
  exact ⟨a.data, b.data, by simp [String.data_append]⟩

/-- The API `.env` content contains the token (after `BEARER_TOKEN=`). -/
theorem apiEnvContent_hasToken (cfg : Config) (token : String) :
    strHasSub (apiEnvContent cfg token) token := by
  exact strHasSub_of_eq _
    ("PORT=" ++ cfg.APIPort ++ "\nTEMPORAL_ADDRESS=localhost:" ++ cfg.TemporalPort ++
      "\nTEMPORAL_NAMESPACE=default\nTEMPORAL_TASK_QUEUE=investigate-task-queue\nAWS_REGION=" ++
      cfg.Region ++ "\nDYNAMODB_TABLE=" ++ cfg.DynamoDBTable ++ "\nBEARER_TOKEN=")
    token "\nAUTH_MODE=local\n" rfl

/-- The CLI config JSON contains the token (the `apiToken` value). -/
theorem cliConfigContent_hasToken (cfg : Config) (token : String) :
    strHasSub (cliConfigContent cfg token) token := by
  refine strHasSub_of_eq _
    ("\x7b\n  \"apiUrl\": \"http://localhost:" ++ cfg.APIPort ++ "/v1\",\n  \"apiToken\": \"")
    token
    ("\",\n  \"region\": \"us-east-1\",\n  \"defaultModel\": \"" ++ cfg.DefaultModel ++
      "\",\n  \"chunkSize\": 10,\n  \"outputFormat\": \"pretty\"\n\x7d\n")
    ?_
  simp [cliConfigContent, String.append_assoc]

/-- A successful `setupAPI` wrote the `.env` file with the token-bearing
content. -/
theorem setupAPI_env_write (installDir : String) (cfg : Config) (token : String)
    (w : World) (h : (setupAPI installDir cfg token w).1 = none) :
    Effect.writeFile (installDir ++ "/api" ++ "/.env") (apiEnvContent cfg token) ∈
      (setupAPI installDir cfg token w).2 := by
  simp only [setupAPI] at h ⊢
  split_ifs at h ⊢ <;> simp_all

/-- A successful `configureCLI` wrote `config.json` with the token-bearing
content. -/
theorem configureCLI_config_write (cfg : Config) (token : String) (w : World)
    (h : (configureCLI cfg token w).1 = none) :
    Effect.writeFile (w.homeDir ++ "/.reposwarm" ++ "/config.json")
      (cliConfigContent cfg token) ∈ (configureCLI cfg token w).2 := by
  simp only [configureCLI] at h ⊢
  split_ifs at h ⊢ <;> simp_all

/-- Every file `setupWorker` writes has token-independent content: the
worker env file, an empty log file, or the pid file. -/
theorem setupWorker_writes (installDir : String) (cfg : Config) (w : World) :
    ∀ p cont, Effect.writeFile p cont ∈ (setupWorker installDir cfg w).2 →
      cont = workerEnvContent cfg ∨ cont = "" ∨ cont = "PID" := by
  simp only [setupWorker]
  split_ifs <;> intro p cont h <;> simp at h <;> tauto

/-- Does some write in the trace have the token as a substring? -/
def hasTokenWrite (tok : String) (tr : List Effect) : Bool :=
  tr.any fun e =>
    match e with
    | .writeFile _ cont => decide (strHasSub cont tok)
    | _ => false

set_option maxRecDepth 200000 in
/-- C6 counterexample: a fully successful run whose 64-character token is
written to the API env file and the CLI config, while no file written by
worker provisioning contains the token — the worker has no "derived auth
context" carrying it, refuting the three-way identity the claim states. -/
theorem C6_counterexample_worker_never_gets_token :
    (SetupLocal envAll "/tmp/rs" cfg0 wAll).error = none ∧
    (SetupLocal envAll "/tmp/rs" cfg0 wAll).result.token.length = 64 ∧
    Effect.writeFile ("/tmp/rs" ++ "/worker" ++ "/.env") (workerEnvContent cfg0) ∈
      (SetupLocal envAll "/tmp/rs" cfg0 wAll).trace ∧
    ¬ strHasSub (workerEnvContent cfg0)
        (SetupLocal envAll "/tmp/rs" cfg0 wAll).result.token ∧
    hasTokenWrite (SetupLocal envAll "/tmp/rs" cfg0 wAll).result.token
      (setupWorker "/tmp/rs" cfg0 wAll).2 = false := by
  decide

/-- C6 amended: on every completed run, the token is a 64-character
lower-case hex string, generated once and written identically into the
API service's `.env` (`BEARER_TOKEN`) and the CLI config (`apiToken`);
worker provisioning receives no token — all its writes are
token-independent. -/
theorem C6_token_identical_api_cli_not_worker (env : Environment)
    (installDir : String) (cfg : Config) (w : World)
    (hlen : w.tokenBytes.length = 32)
    (h : (SetupLocal env installDir cfg w).error = none) :
    (SetupLocal env installDir cfg w).result.token.length = 64 ∧
    (∀ c ∈ (SetupLocal env installDir cfg w).result.token.data,
      c ∈ ("0123456789abcdef").data) ∧
    Effect.writeFile (installDir ++ "/api" ++ "/.env")
      (apiEnvContent cfg (SetupLocal env installDir cfg w).result.token) ∈
      (SetupLocal env installDir cfg w).trace ∧
    strHasSub (apiEnvContent cfg (SetupLocal env installDir cfg w).result.token)
      (SetupLocal env installDir cfg w).result.token ∧
    Effect.writeFile (w.homeDir ++ "/.reposwarm" ++ "/config.json")
      (cliConfigContent cfg (SetupLocal env installDir cfg w).result.token) ∈
      (SetupLocal env installDir cfg w).trace ∧
    strHasSub (cliConfigContent cfg (SetupLocal env installDir cfg w).result.token)
      (SetupLocal env installDir cfg w).result.token ∧
    (∀ p cont, Effect.writeFile p cont ∈ (setupWorker installDir cfg w).2 →
      cont = workerEnvContent cfg ∨ cont = "" ∨ cont = "PID") := by
  cases hm : (MissingDeps env).isEmpty with
  | false => simp [SetupLocal, hm] at h
  | true =>
  cases hr : w.randOk with
  | false => simp [SetupLocal, hm, hr] at h
  | true =>
  cases hd : w.installMkdirOk with
  | false => simp [SetupLocal, hm, hr, hd] at h
  | true =>
  rcases hT : setupTemporal installDir cfg w with ⟨eT, trT⟩
  cases eT with
  | some e => simp [SetupLocal, hm, hr, hd, hT] at h
  | none =>
  rcases hA : setupAPI installDir cfg (hexEncode w.tokenBytes) w with ⟨eA, trA⟩
  cases eA with
  | some e => simp [SetupLocal, hm, hr, hd, hT, hA] at h
  | none =>
  rcases hW : setupWorker installDir cfg w with ⟨eW, trW⟩
  rcases hU : setupUI installDir cfg w with ⟨eU, trU⟩
  rcases hC : configureCLI cfg (hexEncode w.tokenBytes) w with ⟨eC, trC⟩
  cases eC with
  | some e => simp [SetupLocal, hm, hr, hd, hT, hA, hW, hU, hC] at h
  | none =>
  rcases hV : verifyServices cfg w with ⟨vs, trV⟩
  have htok : (SetupLocal env installDir cfg w).result.token = hexEncode w.tokenBytes := by
    simp [SetupLocal, hm, hr, hd, hT, hA, hW, hU, hC, hV]
  have mA : Effect.writeFile (installDir ++ "/api" ++ "/.env")
      (apiEnvContent cfg (hexEncode w.tokenBytes)) ∈ trA := by
    have := setupAPI_env_write installDir cfg (hexEncode w.tokenBytes) w
      (by rw [hA])
    rwa [hA] at this
  have mC : Effect.writeFile (w.homeDir ++ "/.reposwarm" ++ "/config.json")
      (cliConfigContent cfg (hexEncode w.tokenBytes)) ∈ trC := by
    have := configureCLI_config_write cfg (hexEncode w.tokenBytes) w
      (by rw [hC])
    rwa [hC] at this
  have hw2 := setupWorker_writes installDir cfg w
  rw [hW] at hw2
  rw [htok]
  refine ⟨by rw [hexEncode_length, hlen], hexEncode_mem_hexdigits w.tokenBytes,
    ?_, apiEnvContent_hasToken cfg _, ?_, cliConfigContent_hasToken cfg _,
    hw2⟩ <;>
    simp [SetupLocal, hm, hr, hd, hT, hA, hW, hU, hC, hV] <;> tauto

/-- Witness for the amended C6 at a fully successful concrete run. -/
theorem C6_token_identical_api_cli_not_worker_witness :
    (SetupLocal envAll "/tmp/rs" cfg0 wAll).result.token.length = 64 ∧
    strHasSub (apiEnvContent cfg0 (SetupLocal envAll "/tmp/rs" cfg0 wAll).result.token)
      (SetupLocal envAll "/tmp/rs" cfg0 wAll).result.token ∧
    strHasSub (cliConfigContent cfg0 (SetupLocal envAll "/tmp/rs" cfg0 wAll).result.token)
      (SetupLocal envAll "/tmp/rs" cfg0 wAll).result.token := by
  have h := C6_token_identical_api_cli_not_worker envAll "/tmp/rs" cfg0 wAll
    rfl (by decide)
  exact ⟨h.1, h.2.2.2.1, h.2.2.2.2.2.1⟩

/-! ### Temporal lemmas on the polling loop (C8, C10) -/

/-- With enough fuel and only unhealthy probes, the loop returns the
timeout error at exactly the deadline, after `T / 2000` probes. -/
theorem waitGo_timeout_of_unhealthy (probes : Nat → HTTPProbe) (T : Nat)
    (hfail : ∀ k, probeHealthy (probes k) = false) :
    ∀ fuel k, k ≤ T / 2000 → T / 2000 < k + fuel →
      waitGo probes T fuel k = .timeout T (T / 2000) := by
  intro fuel
  induction fuel with
  | zero => intro k h1 h2; omega
  | succ m ih =>
    intro k h1 h2
    simp only [waitGo]
    by_cases hlt : T < 2000 * (k + 1)
    · rw [if_pos hlt]
      have hk : T / 2000 = k := by omega
      rw [hk]
    · rw [if_neg hlt, hfail k]
      simp only [Bool.false_eq_true, if_false]
      exact ih (k + 1) (by omega) (by omega)

/-- Any timeout result of the loop carries exactly the deadline. -/
theorem waitGo_timeout_time (probes : Nat → HTTPProbe) (T : Nat) :
    ∀ fuel k t n, waitGo probes T fuel k = .timeout t n → t = T := by
  intro fuel
  induction fuel with
  | zero =>
    intro k t n h
    simp only [waitGo, WaitResult.timeout.injEq] at h
    omega
  | succ m ih =>
    intro k t n h
    simp only [waitGo] at h
    by_cases hlt : T < 2000 * (k + 1)
    · rw [if_pos hlt] at h
      simp only [WaitResult.timeout.injEq] at h
      omega
    · rw [if_neg hlt] at h
      by_cases hp : probeHealthy (probes k) = true
      · rw [if_pos hp] at h; cases h
      · rw [if_neg hp] at h
        exact ih (k + 1) t n h

/-- A success result happens at the tick of the first healthy probe:
`n` probes were issued, the `n`-th (0-based `n - 1`) is the first
healthy one, and the success time is its tick `2000 * n`, within the
deadline. -/
theorem waitGo_success_first_healthy (probes : Nat → HTTPProbe) (T : Nat) :
    ∀ fuel k t n, waitGo probes T fuel k = .success t n →
      k < n ∧ t = 2000 * n ∧ 2000 * n ≤ T ∧
      probeHealthy (probes (n - 1)) = true ∧
      ∀ j, k ≤ j → j < n - 1 → probeHealthy (probes j) = false := by
  intro fuel
  induction fuel with
  | zero => intro k t n h; simp [waitGo] at h
  | succ m ih =>
    intro k t n h
    simp only [waitGo] at h
    by_cases hlt : T < 2000 * (k + 1)
    · rw [if_pos hlt] at h; cases h
    · rw [if_neg hlt] at h
      by_cases hp : probeHealthy (probes k) = true
      · rw [if_pos hp] at h
        have h1 : 2000 * (k + 1) = t ∧ k + 1 = n := by
          simpa [WaitResult.success.injEq] using h
        obtain ⟨ht, hn⟩ := h1
        subst hn
        refine ⟨by omega, ht.symm, by omega, by simpa using hp, ?_⟩
        intro j hj1 hj2
        omega
      · rw [if_neg hp] at h
        have hres := ih (k + 1) t n h
        refine ⟨by omega, hres.2.1, hres.2.2.1, hres.2.2.2.1, ?_⟩
        intro j hj1 hj2
        rcases Nat.eq_or_lt_of_le hj1 with rfl | hlt2
        · exact Bool.not_eq_true _ ▸ Bool.eq_false_iff.mpr (fun hcon => hp hcon)
        · exact hres.2.2.2.2 j (by omega) hj2

/-- C8: `waitForHTTP` succeeds at the tick of the first probe whose GET
returns a status below 500 (ticks are 2 s apart, requests capped at 5 s
by `effOutcome`), and against an endpoint that never becomes healthy it
returns the timeout error carrying exactly the configured deadline —
never earlier. -/
theorem C8_waitForHTTP_first_success_or_deadline (probes : Nat → HTTPProbe)
    (T : Nat) :
    ((∀ k, probeHealthy (probes k) = false) →
      waitForHTTP probes T = .timeout T (T / 2000)) ∧
    (∀ t n, waitForHTTP probes T = .timeout t n → t = T) ∧
    (∀ t n, waitForHTTP probes T = .success t n →
      1 ≤ n ∧ t = 2000 * n ∧ 2000 * n ≤ T ∧
      probeHealthy (probes (n - 1)) = true ∧
      ∀ j < n - 1, probeHealthy (probes j) = false) := by
  refine ⟨?_, ?_, ?_⟩
  · intro hfail
    exact waitGo_timeout_of_unhealthy probes T hfail (T / 2000 + 1) 0
      (by omega) (by omega)
  · intro t n h
    exact waitGo_timeout_time probes T (T / 2000 + 1) 0 t n h
  · intro t n h
    have hres := waitGo_success_first_healthy probes T (T / 2000 + 1) 0 t n h
    exact ⟨by omega, hres.2.1, hres.2.2.1, hres.2.2.2.1,
      fun j hj => hres.2.2.2.2 j (by omega) hj⟩

/-- Witness for C8: a permanently 503 endpoint against a 7 s deadline
(timeout at 7000 ms after 3 probes), and an endpoint healthy from the
second probe against a 10 s deadline (success at 4000 ms). -/
theorem C8_waitForHTTP_first_success_or_deadline_witness :
    waitForHTTP (fun _ => ⟨0, ProbeOutcome.status 503⟩) 7000 =
      WaitResult.timeout 7000 3 ∧
    (1 ≤ 2 ∧ (4000 : Nat) = 2000 * 2 ∧ 2000 * 2 ≤ 10000 ∧
      probeHealthy ((fun k => if k = 0 then ⟨0, ProbeOutcome.status 503⟩
          else ⟨0, ProbeOutcome.status 200⟩) (2 - 1)) = true ∧
      ∀ j < 2 - 1, probeHealthy ((fun k =>
          if k = 0 then (⟨0, ProbeOutcome.status 503⟩ : HTTPProbe)
          else ⟨0, ProbeOutcome.status 200⟩) j) = false) := by
  constructor
  · exact (C8_waitForHTTP_first_success_or_deadline
      (fun _ => ⟨0, ProbeOutcome.status 503⟩) 7000).1 (fun _ => rfl)
  · exact (C8_waitForHTTP_first_success_or_deadline
      (fun k => if k = 0 then ⟨0, ProbeOutcome.status 503⟩
        else ⟨0, ProbeOutcome.status 200⟩) 10000).2.2 4000 2 (by decide)

/-- C10: the first probe fires only after one full 2 s tick, so success
never arrives before 2000 ms, and any deadline strictly below 2000 ms
times out having issued zero probes. -/
theorem C10_no_probe_before_first_tick (probes : Nat → HTTPProbe) (T : Nat) :
    (∀ t n, waitForHTTP probes T = .success t n → 2000 ≤ t) ∧
    (T < 2000 → waitForHTTP probes T = .timeout T 0) := by
  constructor
  · intro t n h
    have hres := waitGo_success_first_healthy probes T (T / 2000 + 1) 0 t n h
    have h1 : 1 ≤ n := by omega
    have h2 : t = 2000 * n := hres.2.1
    omega
  · intro h
    have h0 : T / 2000 = 0 := by omega
    simp only [waitForHTTP, h0, waitGo]
    rw [if_pos (by omega : T < 2000 * (0 + 1))]

/-- Witness for C10: an endpoint healthy from the very first probe still
succeeds no earlier than 2000 ms, and a 1500 ms deadline times out with
zero probes issued. -/
theorem C10_no_probe_before_first_tick_witness :
    2000 ≤ 2000 ∧
    waitForHTTP (fun _ => ⟨0, ProbeOutcome.status 200⟩) 1500 =
      WaitResult.timeout 1500 0 := by
  constructor
  · exact (C10_no_probe_before_first_tick
      (fun _ => ⟨0, ProbeOutcome.status 200⟩) 10000).1 2000 1 (by decide)
  · exact (C10_no_probe_before_first_tick
      (fun _ => ⟨0, ProbeOutcome.status 200⟩) 1500).2 (by omega)

end RepoSwarm
